import Mathlib

/-!
Verification of the Yellowstone gRPC client (`src/python/main.py`):
a shallow embedding of its configuration loading, authentication plugin,
message handler, subscription loop with ping/pong relay, and the
reconnection supervisor, with theorems about the spec's claims.
-/

/-- The tagged union of inbound stream updates, as dispatched on by
`MessageHandler.handle_message` via `update.WhichOneof('update_oneof')`.
The `absent` constructor is the Python `None` result of `WhichOneof`
(no recognized field set); `unknown` is any other tag string. -/
inductive UpdateOneof where
  | slot (slotNum parent : Nat) (status : String)
  | account (hasAccount : Bool) (pubkey : String) (slotNum lamports : Nat)
  | transaction (hasTx : Bool) (slotNum : Nat) (signature : String)
  | block (slotNum : Nat) (blockhash : String)
  | ping (id : Nat)
  | pong (id : Nat)
  | absent
  | unknown (tag : String)
  deriving DecidableEq, Repr

/-- The body of the `try` block of `MessageHandler.handle_message`:
classify the update and return `True` to continue, `False` to break.
An `Except` result models a Python exception escaping the body. -/
def handleMessageBody (u : UpdateOneof) : Except String Bool :=
  match u with
  | .slot _ _ _ => .ok true
  | .account _ _ _ _ => .ok true
  | .transaction _ _ _ => .ok true
  | .block _ _ => .ok true
  | .ping _ => .ok true
  | .pong _ => .ok true
  | .absent => .ok false
  | .unknown _ => .ok true

/-- The `except Exception` wrapper of `handle_message`: any exception from
the body is caught, logged, and converted to `False` (stop). -/
def handleMessageCatch (body : Except String Bool) : Bool :=
  match body with
  | .ok b => b
  | .error _ => false

/-- `MessageHandler.handle_message`: returns `True` to continue the loop,
`False` to break it; never lets an exception escape. -/
def handle_message (u : UpdateOneof) : Bool :=
  handleMessageCatch (handleMessageBody u)

/-- The single-char membership test Python performs with `':' in endpoint`
(a one-character needle occurs in the string iff it occurs among its
characters). -/
def strContainsChar (s : String) (c : Char) : Bool :=
  s.data.contains c

/-- `Config.__init__`, lines 38-49: read `GEYSER_ENDPOINT` with default
`grpc.solanavibestation.com:443` and `GEYSER_ACCESS_TOKEN` with default
empty; raise `ValueError` when the endpoint is empty; append `:443` when
the endpoint has no `':'`. Environment variables are passed as
`Option String` (`Option.none` = unset). Returns `(endpoint, x_token)`. -/
def Config.init (envEndpoint envToken : Option String) :
    Except String (String × String) :=
  let endpoint := envEndpoint.getD "grpc.solanavibestation.com:443"
  let x_token := envToken.getD ""
  if endpoint = "" then
    .error "GEYSER_ENDPOINT is required"
  else
    let endpoint :=
      if strContainsChar endpoint ':' then endpoint else endpoint ++ ":443"
    .ok (endpoint, x_token)

/-- The endpoint-normalisation step of `Config.__init__` in isolation
(lines 47-49). -/
def effectiveEndpoint (endpoint : String) : String :=
  if strContainsChar endpoint ':' then endpoint else endpoint ++ ":443"

/-- `TritonAuthMetadataPlugin.__call__`: the metadata pairs passed to the
callback — the single pair `("x-token", token)` when the token string is
truthy (non-empty), none otherwise. -/
def tritonAuthMetadata (x_token : String) : List (String × String) :=
  if x_token = "" then [] else [("x-token", x_token)]

/-- Channel credentials as assembled by `GrpcClient.connect`,
lines 147-156. -/
inductive Credentials where
  | ssl
  | composite (base : Credentials) (pluginToken : String)
  deriving DecidableEq, Repr

/-- The credential selection of `GrpcClient.connect`: plain SSL
credentials when no token is configured, otherwise SSL composed with the
call-credential layer built from `TritonAuthMetadataPlugin`. -/
def connectCredentials (x_token : String) : Credentials :=
  if x_token = "" then .ssl else .composite .ssl x_token

/-- The id of a liveness-request update, `Option.none` for every other
variant (`update.HasField('ping')` together with `update.ping.id`). -/
def pingId (u : UpdateOneof) : Option Nat :=
  match u with
  | .ping i => some i
  | _ => none

/-- `SubscriptionManager` state visible to the subscription loop: the
liveness relay queue `self.ping_queue` (an `asyncio.Queue` of ping ids,
modelled as a FIFO list, head = oldest). -/
structure SubscriptionManager where
  ping_queue : List Nat
  deriving DecidableEq, Repr

/-- `SubscriptionManager.__init__`: a fresh manager always starts with a
newly created, empty `asyncio.Queue()`. -/
def SubscriptionManager.init : SubscriptionManager :=
  { ping_queue := [] }

/-- State of the inbound `async for update in stream` loop of
`SubscriptionManager.run` (lines 237-254): the relay queue, the updates
forwarded to `handle_message`, and whether the loop has broken out. -/
structure LoopState where
  queue : List Nat
  dispatched : List UpdateOneof
  stopped : Bool
  deriving DecidableEq, Repr

/-- One iteration of the inbound loop with the shutdown flag unset: a
ping is enqueued on the relay queue and skipped (`continue`), every
other update goes to `handle_message`, and a `False` report breaks the
loop. After a break, later stream items are not consumed. -/
def processUpdate (s : LoopState) (u : UpdateOneof) : LoopState :=
  if s.stopped then s
  else
    match u with
    | .ping i => { s with queue := s.queue ++ [i] }
    | _ =>
      if handle_message u then
        { s with dispatched := s.dispatched ++ [u] }
      else
        { s with dispatched := s.dispatched ++ [u], stopped := true }

/-- The inbound half of `SubscriptionManager.run` over a finite stream
of updates, with the shutdown flag unset throughout, starting from the
manager's current relay queue. -/
def SubscriptionManager.runInbound (m : SubscriptionManager)
    (updates : List UpdateOneof) : LoopState :=
  updates.foldl processUpdate
    { queue := m.ping_queue, dispatched := [], stopped := false }

/-- An item of the outbound request stream produced by
`request_iterator` (lines 204-228). -/
inductive Outbound where
  | subscribe
  | pongReply (id : Nat)
  deriving DecidableEq, Repr

/-- `request_iterator`: first the initial subscription request, then —
while the shutdown flag stays unset — one pong reply per dequeued ping
id, in FIFO queue order, each echoing the dequeued id. Applied to the
relay queue's eventual contents, this is the sequence the outbound path
eventually emits. -/
def request_iterator (queue : List Nat) : List Outbound :=
  Outbound.subscribe :: queue.map Outbound.pongReply

/-- How `SubscriptionManager.run` leaves the `try` block of lines
232-267: the stream loop finished (exhausted, shutdown observed, or
`handle_message` said stop), or an exception reached the handlers. -/
inductive StreamOutcome where
  | finished
  | rpcError (code details : String)
  | cancelled
  | otherError (msg : String)
  deriving DecidableEq, Repr

/-- What `SubscriptionManager.run` does at its caller's boundary. -/
inductive SessionResult where
  | ok
  | raised (e : StreamOutcome)
  deriving DecidableEq, Repr

/-- The exception handlers of `SubscriptionManager.run` (lines 256-267):
with the shutdown flag unset, an `grpc.RpcError`, a cancellation, or any
other exception is logged (where the code logs) and re-raised; with the
flag set, each is suppressed and the method returns normally. Returns
the log lines emitted by the handlers together with the result. -/
def SubscriptionManager.runExcept (shutdown : Bool)
    (outcome : StreamOutcome) : List String × SessionResult :=
  match outcome with
  | .finished => ([], .ok)
  | .rpcError code details =>
    if shutdown then ([], .ok)
    else ([s!"Stream error: {code} - {details}"], .raised (.rpcError code details))
  | .cancelled =>
    if shutdown then ([], .ok)
    else ([], .raised .cancelled)
  | .otherError msg =>
    if shutdown then ([], .ok)
    else ([s!"Unexpected error: {msg}"], .raised (.otherError msg))

/-- Outcome of `GrpcClient.connect` inside one attempt.  `self.channel`
is assigned (line 166) before the stub is built (line 172), so a failure
can happen either before or after the channel exists. -/
inductive ConnectOutcome where
  | ok
  | failBeforeChannel (e : String)
  | failAfterChannel (e : String)
  deriving DecidableEq, Repr

/-- Observable events of one `connect_and_subscribe` attempt. -/
inductive AttemptEvent where
  | connectCall
  | runSession
  | sleep (seconds : Nat)
  | closeCall
  | closeChannel
  deriving DecidableEq, Repr

/-- Result of one `connect_and_subscribe` attempt at the decorator's
boundary: a normal return ends the retry loop, a raised exception is
caught by the `backoff` decorator, which retries. -/
inductive AttemptResult where
  | returned
  | raisedErr (msg : String)
  deriving DecidableEq, Repr

/-- `GrpcClient.close` (lines 177-180): close the channel only when one
exists (`if self.channel:`); a no-op otherwise.  Returns the channel
events it performs. -/
def GrpcClient.closeEvents (channel : Option Unit) : List AttemptEvent :=
  match channel with
  | some _ => [AttemptEvent.closeChannel]
  | none => []

/-- Whether the attempt's `GrpcClient` holds a channel after `connect`
returned or raised. -/
def channelAfterConnect (c : ConnectOutcome) : Option Unit :=
  match c with
  | .ok => some ()
  | .failBeforeChannel _ => none
  | .failAfterChannel _ => some ()

/-- One attempt of the decorated `connect_and_subscribe` (lines
285-315), parametrised by the shutdown flag sampled at entry (line 287)
and after the session (line 301), the connect outcome, and the session
result.  The `try`/`finally` guarantees `client.close()` runs on every
exit path once the client exists — after a session error, after the
artificial `raise`, and after a connect failure alike.  Produces the
event trace and the result seen by the `backoff` decorator. -/
def connect_and_subscribe (shutdownAtEntry shutdownAfterRun : Bool)
    (conn : ConnectOutcome) (session : SessionResult) :
    List AttemptEvent × AttemptResult :=
  if shutdownAtEntry then
    ([], .returned)
  else
    let closeTrace := AttemptEvent.closeCall ::
      GrpcClient.closeEvents (channelAfterConnect conn)
    match conn with
    | .failBeforeChannel e =>
      ([AttemptEvent.connectCall] ++ closeTrace, .raisedErr e)
    | .failAfterChannel e =>
      ([AttemptEvent.connectCall] ++ closeTrace, .raisedErr e)
    | .ok =>
      match session with
      | .raised e =>
        ([AttemptEvent.connectCall, AttemptEvent.runSession] ++ closeTrace,
          .raisedErr (toString (repr e)))
      | .ok =>
        if shutdownAfterRun then
          ([AttemptEvent.connectCall, AttemptEvent.runSession] ++ closeTrace,
            .returned)
        else
          ([AttemptEvent.connectCall, AttemptEvent.runSession,
              AttemptEvent.sleep 1] ++ closeTrace,
            .raisedErr "Stream closed, triggering reconnection")

/-- Whether an attempt created a channel at all (the shutdown-at-entry
path returns before a `GrpcClient` is even constructed). -/
def attemptCreatedChannel (shutdownAtEntry : Bool) (conn : ConnectOutcome) :
    Bool :=
  !shutdownAtEntry && (channelAfterConnect conn).isSome

namespace backoff

/-- Modelled from the spec: the external `backoff` library's `expo` wait
generator used by the retry decorator (its code is not part of this
repository). With its default base 2 and factor 1, the delay before
retry number `n` (0-indexed) is `factor * base ^ n`: exponential growth
with no maximum attempt count and no maximum elapsed time. -/
def expo (n : Nat) : Nat :=
  1 * 2 ^ n

/-- Modelled from the spec: the retry decorator
`backoff.on_exception(..., Exception, max_tries=None, max_time=None)`
retries on any raised exception and stops only on a normal return. -/
def retries (r : AttemptResult) : Bool :=
  match r with
  | .raisedErr _ => true
  | .returned => false

end backoff

/-! Helper lemmas about the inbound-loop fold. -/

lemma processUpdate_stopped_of (s : LoopState) (u : UpdateOneof)
    (h : s.stopped = true) : (processUpdate s u).stopped = true := by
  simp [processUpdate, h]

lemma foldl_stopped_of (us : List UpdateOneof) (s : LoopState)
    (h : s.stopped = true) : (us.foldl processUpdate s).stopped = true := by
  induction us generalizing s with
  | nil => exact h
  | cons u us ih => exact ih _ (processUpdate_stopped_of s u h)

lemma processUpdate_queue (s : LoopState) (u : UpdateOneof)
    (hs : s.stopped = false) :
    (processUpdate s u).queue = s.queue ++ (pingId u).toList := by
  cases u <;> simp [processUpdate, hs, pingId] <;> split <;> rfl

lemma foldl_queue_eq (us : List UpdateOneof) (s : LoopState)
    (h : (us.foldl processUpdate s).stopped = false) :
    (us.foldl processUpdate s).queue = s.queue ++ us.filterMap pingId := by
  induction us generalizing s with
  | nil => simp
  | cons u us ih =>
    rw [List.foldl_cons] at h ⊢
    have hs : s.stopped = false := by
      by_contra hc
      rw [foldl_stopped_of us _
        (processUpdate_stopped_of s u (by simpa using hc))] at h
      exact absurd h (by simp)
    rw [ih _ h, processUpdate_queue s u hs]
    cases u <;> simp [pingId]

lemma processUpdate_dispatched_sources (s : LoopState) (u : UpdateOneof) :
    ∀ v ∈ (processUpdate s u).dispatched,
      v ∈ s.dispatched ∨ (v = u ∧ pingId v = none) := by
  intro v hv
  by_cases hs : s.stopped = true
  · simp [processUpdate, hs] at hv; exact Or.inl hv
  · simp at hs
    cases u <;>
      simp [processUpdate, hs, handle_message, handleMessageBody,
        handleMessageCatch, List.mem_append] at hv <;>
      [skip; skip; skip; skip; exact Or.inl hv; skip; skip; skip] <;>
      (rcases hv with hv | hv
       · exact Or.inl hv
       · subst hv; exact Or.inr ⟨rfl, rfl⟩)

lemma foldl_dispatched_no_ping (us : List UpdateOneof) (s : LoopState)
    (h : ∀ v ∈ s.dispatched, pingId v = none) :
    ∀ v ∈ (us.foldl processUpdate s).dispatched, pingId v = none := by
  induction us generalizing s with
  | nil => exact h
  | cons u us ih =>
    rw [List.foldl_cons]
    refine ih _ ?_
    intro v hv
    rcases processUpdate_dispatched_sources s u v hv with hv' | ⟨_, hp⟩
    · exact h v hv'
    · exact hp

lemma processUpdate_queue_sources (s : LoopState) (u : UpdateOneof) :
    ∀ i ∈ (processUpdate s u).queue, i ∈ s.queue ∨ u = .ping i := by
  intro i hi
  by_cases hs : s.stopped = true
  · simp [processUpdate, hs] at hi; exact Or.inl hi
  · simp at hs
    rw [processUpdate_queue s u hs] at hi
    cases u <;> simp [pingId] at hi <;>
      first
        | exact Or.inl hi
        | (rcases hi with hi | hi
           · exact Or.inl hi
           · subst hi; exact Or.inr rfl)

lemma foldl_queue_sources (us : List UpdateOneof) (s : LoopState) :
    ∀ i ∈ (us.foldl processUpdate s).queue,
      i ∈ s.queue ∨ UpdateOneof.ping i ∈ us := by
  induction us generalizing s with
  | nil => intro i hi; exact Or.inl hi
  | cons u us ih =>
    intro i hi
    rw [List.foldl_cons] at hi
    rcases ih _ i hi with hi' | hi'
    · rcases processUpdate_queue_sources s u i hi' with h2 | h2
      · exact Or.inl h2
      · exact Or.inr (by simp [h2])
    · exact Or.inr (List.mem_cons_of_mem u hi')

/-- C1: for every inbound stream processed with the shutdown flag unset
and the session staying open (no stop report), the outbound request
iterator eventually emits exactly one pong reply per ping, each carrying
its ping's identifier, in FIFO receipt order, after the initial
subscription request; and no ping is ever forwarded to the message
dispatcher. -/
theorem pings_get_fifo_pongs (updates : List UpdateOneof)
    (h : (SubscriptionManager.init.runInbound updates).stopped = false) :
    request_iterator (SubscriptionManager.init.runInbound updates).queue =
      Outbound.subscribe ::
        (updates.filterMap pingId).map Outbound.pongReply ∧
    ∀ u ∈ (SubscriptionManager.init.runInbound updates).dispatched,
      pingId u = none := by
  unfold SubscriptionManager.runInbound at h ⊢
  constructor
  · rw [request_iterator, foldl_queue_eq _ _ h]
    simp [SubscriptionManager.init]
  · exact foldl_dispatched_no_ping _ _ (by intro v hv; simp at hv)

/-- Witness for C1 at the concrete stream [ping 5, slot, ping 7]. -/
theorem pings_get_fifo_pongs_witness :
    (SubscriptionManager.init.runInbound
        [UpdateOneof.ping 5, UpdateOneof.slot 1 0 "c",
          UpdateOneof.ping 7]).stopped = false ∧
    request_iterator (SubscriptionManager.init.runInbound
        [UpdateOneof.ping 5, UpdateOneof.slot 1 0 "c",
          UpdateOneof.ping 7]).queue =
      Outbound.subscribe ::
        (([UpdateOneof.ping 5, UpdateOneof.slot 1 0 "c",
            UpdateOneof.ping 7].filterMap pingId).map Outbound.pongReply) :=
  ⟨by decide,
    (pings_get_fifo_pongs
      [UpdateOneof.ping 5, UpdateOneof.slot 1 0 "c", UpdateOneof.ping 7]
      (by decide)).1⟩

/-- C2: with the delay for the n-th failure given by the retry
decorator's exponential wait generator, every run of N consecutive
failures produces a monotonically non-decreasing sequence of backoff
delays, for arbitrary N. -/
theorem backoff_delays_monotone (N i j : Nat) (hij : i ≤ j) (hjN : j < N) :
    backoff.expo i ≤ backoff.expo j := by
  simp only [backoff.expo, one_mul]
  exact Nat.pow_le_pow_right (by norm_num) hij

/-- Witness for C2: delays 1 and 3 of a run of 5 failures. -/
theorem backoff_delays_monotone_witness :
    1 ≤ 3 ∧ 3 < 5 ∧ backoff.expo 1 ≤ backoff.expo 3 :=
  ⟨by decide, by decide, backoff_delays_monotone 5 1 3 (by decide) (by decide)⟩

/-- C3: when a session completes without error and the shutdown flag is
false, the attempt sleeps 1 second and then raises the artificial
"Stream closed, triggering reconnection" failure, which the retry
decorator catches and retries; with the shutdown flag false the attempt
never returns normally, so the process never exits on a clean stream
close. -/
theorem clean_close_reconnects :
    connect_and_subscribe false false ConnectOutcome.ok SessionResult.ok =
      ([AttemptEvent.connectCall, AttemptEvent.runSession, AttemptEvent.sleep 1,
          AttemptEvent.closeCall, AttemptEvent.closeChannel],
        AttemptResult.raisedErr "Stream closed, triggering reconnection") ∧
    backoff.retries
      (connect_and_subscribe false false ConnectOutcome.ok
        SessionResult.ok).2 = true ∧
    ∀ (conn : ConnectOutcome) (session : SessionResult),
      (connect_and_subscribe false false conn session).2 ≠
        AttemptResult.returned := by
  refine ⟨rfl, rfl, fun conn session => ?_⟩
  cases conn <;> cases session <;> simp [connect_and_subscribe]

/-- Witness for C3 at the clean-close attempt. -/
theorem clean_close_reconnects_witness :
    (connect_and_subscribe false false ConnectOutcome.ok SessionResult.ok).2 ≠
      AttemptResult.returned :=
  clean_close_reconnects.2.2 ConnectOutcome.ok SessionResult.ok

/-- C4: a transport (RPC) error during an active session is logged and
re-raised when the shutdown flag is false, and suppressed (the session
returns without error) when the shutdown flag is true; cancellation is
likewise suppressed under shutdown. -/
theorem stream_error_propagation (code details : String) :
    SubscriptionManager.runExcept false (StreamOutcome.rpcError code details) =
      ([s!"Stream error: {code} - {details}"],
        SessionResult.raised (StreamOutcome.rpcError code details)) ∧
    SubscriptionManager.runExcept true (StreamOutcome.rpcError code details) =
      ([], SessionResult.ok) ∧
    SubscriptionManager.runExcept true StreamOutcome.cancelled =
      ([], SessionResult.ok) :=
  ⟨rfl, rfl, rfl⟩

/-- C5: `handle_message` is a total function (no exception ever crosses
the session boundary); it reports stop (`false`) exactly when the
update's active variant is the none/absence case, and the catch wrapper
converts any internal classification fault into a stop report; every
recognized and every unrecognized variant reports continue (`true`). -/
theorem handle_message_stop_iff (u : UpdateOneof) (e : String) :
    (handle_message u = false ↔ u = UpdateOneof.absent) ∧
    handleMessageCatch (Except.error e) = false := by
  refine ⟨?_, rfl⟩
  cases u <;> simp [handle_message, handleMessageBody, handleMessageCatch]

/-- C6: on every exit path of a `connect_and_subscribe` attempt the
transport channel is closed exactly once when one was created and never
otherwise, and `GrpcClient.close` is a no-op when no channel exists. -/
theorem channel_closed_exactly_once (se sr : Bool) (conn : ConnectOutcome)
    (session : SessionResult) :
    ((connect_and_subscribe se sr conn session).1.count
        AttemptEvent.closeChannel =
      if attemptCreatedChannel se conn then 1 else 0) ∧
    GrpcClient.closeEvents none = [] := by
  refine ⟨?_, rfl⟩
  cases se <;> cases sr <;> cases conn <;> cases session <;>
    simp [connect_and_subscribe, attemptCreatedChannel, channelAfterConnect,
      GrpcClient.closeEvents, List.count_cons, List.count_nil]

/-- C7: every non-empty endpoint string without a ':' separator gets
":443" appended, and one with a ':' is used unchanged. -/
theorem endpoint_default_port (s : String) (h : s ≠ "") :
    (strContainsChar s ':' = false → effectiveEndpoint s = s ++ ":443") ∧
    (strContainsChar s ':' = true → effectiveEndpoint s = s) := by
  constructor <;> intro hc <;> simp [effectiveEndpoint, hc]

/-- Witness for C7 at "example.com" (no port) and "grpc.host:9000". -/
theorem endpoint_default_port_witness :
    ("example.com" : String) ≠ "" ∧
    effectiveEndpoint "example.com" = "example.com" ++ ":443" ∧
    effectiveEndpoint "grpc.host:9000" = "grpc.host:9000" :=
  ⟨by decide,
    (endpoint_default_port "example.com" (by decide)).1 (by decide),
    (endpoint_default_port "grpc.host:9000" (by decide)).2 (by decide)⟩

/-- C8: with a non-empty token the auth plugin attaches exactly the one
metadata pair ("x-token", token) and the channel uses SSL composed with
the call-credential layer; with an empty token it attaches no metadata
and the channel uses plain SSL credentials. -/
theorem auth_metadata_single_pair (t : String) :
    (t ≠ "" → tritonAuthMetadata t = [("x-token", t)] ∧
      connectCredentials t = Credentials.composite Credentials.ssl t) ∧
    tritonAuthMetadata "" = [] ∧ connectCredentials "" = Credentials.ssl := by
  refine ⟨fun h => ?_, rfl, rfl⟩
  simp [tritonAuthMetadata, connectCredentials, h]

/-- Witness for C8 at the token "secret". -/
theorem auth_metadata_single_pair_witness :
    tritonAuthMetadata "secret" = [("x-token", "secret")] ∧
    connectCredentials "secret" = Credentials.composite Credentials.ssl "secret" :=
  (auth_metadata_single_pair "secret").1 (by decide)

/-- C9: with GEYSER_ENDPOINT unset, configuration loading succeeds and
silently uses the hardcoded default "grpc.solanavibestation.com:443";
an explicitly empty endpoint string raises the configuration error, and
only that: every set, non-empty endpoint loads without error (yielding
its effective form). -/
theorem env_unset_uses_default (s : String) (t : Option String) :
    Config.init Option.none t =
      Except.ok ("grpc.solanavibestation.com:443", t.getD "") ∧
    Config.init (some "") t = Except.error "GEYSER_ENDPOINT is required" ∧
    (s ≠ "" → Config.init (some s) t =
      Except.ok (effectiveEndpoint s, t.getD "")) := by
  refine ⟨rfl, rfl, fun h => ?_⟩
  simp [Config.init, effectiveEndpoint, h]

/-- Witness for C9 at the set, non-empty endpoint "myhost". -/
theorem env_unset_uses_default_witness :
    ("myhost" : String) ≠ "" ∧
    Config.init (some "myhost") (some "tok") =
      Except.ok (effectiveEndpoint "myhost", (some "tok").getD "") :=
  ⟨by decide,
    (env_unset_uses_default "myhost" (some "tok")).2.2 (by decide)⟩

/-- C10: every attempt builds a fresh `SubscriptionManager` whose
liveness queue starts empty, so every pong reply emitted on an attempt's
outbound stream answers a ping received on that same attempt's inbound
stream — no reply pending from an earlier session can appear. -/
theorem fresh_manager_no_stale_pongs (updates : List UpdateOneof) :
    SubscriptionManager.init.ping_queue = [] ∧
    ∀ i, Outbound.pongReply i ∈
        request_iterator (SubscriptionManager.init.runInbound updates).queue →
      UpdateOneof.ping i ∈ updates := by
  refine ⟨rfl, fun i hi => ?_⟩
  unfold SubscriptionManager.runInbound at hi
  simp [request_iterator] at hi
  rcases foldl_queue_sources updates _ i hi with h | h
  · simp [SubscriptionManager.init] at h
  · exact h

/-- Witness for C10 at the one-ping stream [ping 3]. -/
theorem fresh_manager_no_stale_pongs_witness :
    Outbound.pongReply 3 ∈
      request_iterator
        (SubscriptionManager.init.runInbound [UpdateOneof.ping 3]).queue ∧
    UpdateOneof.ping 3 ∈ [UpdateOneof.ping 3] :=
  ⟨by decide,
    (fresh_manager_no_stale_pongs [UpdateOneof.ping 3]).2 3 (by decide)⟩
